import Mathlib

/-!
Verification development for the headlamp backend server
(`backend/cmd/headlamp.go`): a shallow embedding of the proxy registry,
the port-forward (tunnel) session store and watchdog, the OIDC
authorization flow handlers, the external-proxy relay handler, and the
per-cluster request router, together with theorems about their behaviour.

Go maps are embedded as association lists with `mapLookup` / `mapInsert` /
`mapErase` mirroring map read, assignment and `delete`.  Channels are
embedded by integer identity; a send on a channel is recorded rather than
performed.  HTTP handlers become pure functions from their inputs (and the
outcomes of external network calls, passed as explicit parameters) to a
description of the writes they perform.
-/

/-- Association-list read, mirroring a Go map read: the first entry with
the key wins (entries are kept key-unique by `mapInsert`/`mapErase`). -/
def mapLookup {α β : Type} [DecidableEq α] : List (α × β) → α → Option β
  | [], _ => none
  | (k, v) :: rest, a => if k = a then some v else mapLookup rest a

/-- Association-list write, mirroring a Go map assignment `m[k] = v`:
replaces the existing entry for `k` or appends a new one. -/
def mapInsert {α β : Type} [DecidableEq α] : List (α × β) → α → β → List (α × β)
  | [], k, v => [(k, v)]
  | (k', v') :: rest, k, v =>
    if k' = k then (k, v) :: rest else (k', v') :: mapInsert rest k v

/-- Association-list removal, mirroring Go `delete(m, k)`: removes every
entry keyed `k`. -/
def mapErase {α β : Type} [DecidableEq α] : List (α × β) → α → List (α × β)
  | [], _ => []
  | (k', v') :: rest, k =>
    if k' = k then mapErase rest k else (k', v') :: mapErase rest k

/-! ## Port-forward (tunnel) sessions: data model and store -/

/-- Status constant `RUNNING = "Running"` from the source. -/
def RUNNING : String := "Running"

/-- Status constant `STOPPED = "Stopped"` from the source. -/
def STOPPED : String := "Stopped"

/-- `corev1.PodRunning`: the running pod phase string compared against by
the watchdog. -/
def PodRunning : String := "Running"

/-- The `PortForward` record from the source.  The Go field `closeChan`
(a channel) is embedded by an integer channel identity; `namespace` is a
Lean keyword so that field is named `namespaceField`; the Go field
`Error` is named `errorField`. -/
structure PortForward where
  id : String
  closeChan : Nat
  pod : String
  service : String
  serviceNamespace : String
  namespaceField : String
  cluster : String
  port : String
  targetPort : String
  status : String
  errorField : String
deriving DecidableEq, Repr

/-- The Go zero value `PortForward{}` returned by `getPortForwardByID`
when no session matches (all strings empty; the nil channel is identity 0). -/
def emptyPortForward : PortForward :=
  ⟨"", 0, "", "", "", "", "", "", "", "", ""⟩

/-- The `PortForwardPayload` request body from the source. -/
structure PortForwardPayload where
  id : String
  namespaceField : String
  pod : String
  service : String
  serviceNamespace : String
  targetPort : String
  cluster : String
  port : String
deriving DecidableEq, Repr

/-- The global `portForwards` map: cluster name to slice of sessions. -/
abbrev PFStore := List (String × List PortForward)

/-- The loop body of `portforwardstore`: replace the first session with
the same id in place, else append at the end. -/
def storeInList : List PortForward → PortForward → List PortForward
  | [], p => [p]
  | v :: rest, p =>
    if v.id = p.id then p :: rest else v :: storeInList rest p

/-- `portforwardstore` from the source: upsert-by-id into the per-cluster
slice of the `portForwards` map. -/
def portforwardstore (store : PFStore) (p : PortForward) : PFStore :=
  mapInsert store p.cluster (storeInList ((mapLookup store p.cluster).getD []) p)

/-- The loop body of `stopOrDeletePortForward` on the per-cluster slice:
at the first session whose id matches, either mark it Stopped in place and
send on its close channel (stop), or remove it (delete).  Returns the new
slice together with the list of channel identities sent on; `none` when
no session matches. -/
def stopOrDeleteInList : List PortForward → String → Bool → Option (List PortForward × List Nat)
  | [], _, _ => none
  | v :: rest, id, isStopRequest =>
    if v.id = id then
      if isStopRequest then
        some (({ v with status := STOPPED }) :: rest, [v.closeChan])
      else
        some (rest, [])
    else
      match stopOrDeleteInList rest id isStopRequest with
      | none => none
      | some (l, sigs) => some (v :: l, sigs)

/-- `stopOrDeletePortForward` from the source.  On success it returns the
updated store and the channel identities signalled; when no session with
the given cluster and id exists it returns the error
`"PortForward not found"`. -/
def stopOrDeletePortForward (store : PFStore) (cluster : String) (id : String)
    (isStopRequest : Bool) : Except String (PFStore × List Nat) :=
  match mapLookup store cluster with
  | none => .error "PortForward not found"
  | some clusterPortForwards =>
    match stopOrDeleteInList clusterPortForwards id isStopRequest with
    | none => .error "PortForward not found"
    | some (l, sigs) => .ok (mapInsert store cluster l, sigs)

/-- `getPortForwardList` from the source: the per-cluster slice (the nil
slice for an absent key). -/
def getPortForwardList (store : PFStore) (cluster : String) : List PortForward :=
  (mapLookup store cluster).getD []

/-- The lookup loop of `getPortForwardByID`: first session whose id
matches. -/
def findPFByID : List PortForward → String → Option PortForward
  | [], _ => none
  | v :: rest, id => if v.id = id then some v else findPFByID rest id

/-- `getPortForwardByID` from the source: first matching session in the
cluster's slice, or the zero value `PortForward{}` when none matches. -/
def getPortForwardByID (store : PFStore) (cluster : String) (id : String) : PortForward :=
  match mapLookup store cluster with
  | none => emptyPortForward
  | some val => (findPFByID val id).getD emptyPortForward

/-! ## Port-forward watchdog (startPortForward) -/

/-- The record `portForwardToStore` built in `startPortForward` before the
tunnel goroutines start: status `RUNNING`, empty error, close channel
`stopChan`. -/
def portForwardToStore (p : PortForwardPayload) (stopChan : Nat) : PortForward :=
  { id := p.id
    closeChan := stopChan
    pod := p.pod
    cluster := p.cluster
    namespaceField := p.namespaceField
    service := p.service
    serviceNamespace := p.serviceNamespace
    targetPort := p.targetPort
    status := RUNNING
    port := p.port
    errorField := "" }

/-- One pod lookup observed by the watchdog on a tick: the
`clientset...Pods(...).Get` call either fails with `ECONNREFUSED`, fails
with some other error message, or reports the pod's phase. -/
inductive PodPoll
  | connRefused
  | getError (msg : String)
  | phase (p : String)
deriving DecidableEq, Repr

/-- One iteration of the watchdog loop body: `none` means the tick falls
through to the next tick (connection refused, or pod phase Running);
`some msg` means the terminal branch fires with diagnostic `msg`
(the lookup error's message, or `"Pod is not running"`). -/
def watchdogTick : PodPoll → Option String
  | .connRefused => none
  | .getError msg => some msg
  | .phase p => if p ≠ PodRunning then some "Pod is not running" else none

/-- Outcome of a watchdog run: the resulting `portForwards` store, the
channel identities sent on, the number of `portforwardstore` calls made,
and the number of ticks the loop actually processed. -/
structure WatchResult where
  store : PFStore
  signalled : List Nat
  stores : Nat
  consumed : Nat
deriving DecidableEq, Repr

/-- The watchdog goroutine of `startPortForward`, run over a sequence of
tick observations: on the first terminal tick it sends on the session's
close channel, stores the session record with the diagnostic in its
error field (status untouched), stops the ticker and breaks out of the
loop, leaving any later observations unconsumed. -/
def watchdogRun (pf : PortForward) (store : PFStore) : List PodPoll → WatchResult
  | [] => ⟨store, [], 0, 0⟩
  | o :: rest =>
    match watchdogTick o with
    | none =>
      let r := watchdogRun pf store rest
      ⟨r.store, r.signalled, r.stores, r.consumed + 1⟩
    | some msg =>
      ⟨portforwardstore store { pf with errorField := msg }, [pf.closeChan], 1, 1⟩

/-! ## Cluster contexts, proxy factory and registry -/

/-- A parsed URL. -/
structure URLm where
  raw : String
deriving DecidableEq, Repr

/-- Models `net/url.Parse` from the Go standard library (outside src/):
parsing fails exactly on strings containing an ASCII control character
(the library's `net/url: invalid control character in URL` error), the
only error case relevant to the handlers modelled here; otherwise the
URL is kept whole, and `URL.String()` returns it back. -/
def urlParse (s : String) : Option URLm :=
  if s.toList.any (fun c => c.toNat < 32 || c.toNat == 127) then none else some ⟨s⟩

deriving instance DecidableEq for Except

/-- Modelled from the spec: the per-target `Cluster` definition (its Go
type lives outside src/).  `shouldVerifyTLSFlag` is the value of the
`cluster.shouldVerifyTLS()` accessor, `caData` the result of
`cluster.getCAData()` (CA trust-bundle bytes or a read error), `server`
the base URL returned by `getServer()`, and `proxyURL` the optional
upstream forward-proxy URL (empty when absent). -/
structure ClusterM where
  name : String
  server : String
  shouldVerifyTLSFlag : Bool
  caData : Except String (List Nat)
  proxyURL : String
deriving DecidableEq, Repr

/-- Modelled from the spec: the `clientcmdapi.AuthInfo` credential
material referenced by the source (`Token`, `ClientKey`,
`ClientCertificate` as file paths, `ClientKeyData` /
`ClientCertificateData` as inline bytes). -/
structure AuthInfoM where
  token : String
  clientKey : String
  clientCertificate : String
  clientKeyData : Option (List Nat)
  clientCertificateData : Option (List Nat)
deriving DecidableEq, Repr

/-- Modelled from the spec: a kubeconfig `Context` (name, cluster, and
optional auth info; the auth-info pointer may be nil). -/
structure ContextM where
  name : String
  cluster : ClusterM
  authInfo : Option AuthInfoM
deriving DecidableEq, Repr

/-- Modelled from the spec: `context.getClientCertificate()` — the client
certificate file path from the credential material, empty when absent. -/
def getClientCertificate (c : ContextM) : String :=
  match c.authInfo with
  | none => ""
  | some a => a.clientCertificate

/-- Modelled from the spec: `context.getClientKey()` — the client key
file path from the credential material, empty when absent. -/
def getClientKey (c : ContextM) : String :=
  match c.authInfo with
  | none => ""
  | some a => a.clientKey

/-- Modelled from the spec: `context.getClientCertificateData()` — inline
client certificate bytes, nil when absent. -/
def getClientCertificateData (c : ContextM) : Option (List Nat) :=
  match c.authInfo with
  | none => none
  | some a => a.clientCertificateData

/-- Modelled from the spec: `context.getClientKeyData()` — inline client
key bytes, nil when absent. -/
def getClientKeyData (c : ContextM) : Option (List Nat) :=
  match c.authInfo with
  | none => none
  | some a => a.clientKeyData

/-- The `tls.Config` assembled by `createProxyForContext`: the
`InsecureSkipVerify` flag, the root CA pool contents, and the number of
loaded client certificates. -/
structure TLSConfigM where
  insecureSkipVerify : Bool
  rootCAs : List (List Nat)
  certs : Nat
deriving DecidableEq, Repr

/-- The reverse proxy built by `createProxyForContext`: target server
URL, TLS client configuration, and optional upstream forward-proxy URL
(from `getTransportProxy`). -/
structure ProxyM where
  serverURL : String
  tlsConfig : TLSConfigM
  transportProxy : Option String
deriving DecidableEq, Repr

/-- `getTransportProxy` from the source: an upstream proxy function is
wired exactly when the cluster carries a non-empty `ProxyURL`. -/
def getTransportProxy (cluster : ClusterM) : Option String :=
  if cluster.proxyURL ≠ "" then some cluster.proxyURL else none

/-- `createProxyForContext` from the source.  `insecure` is the global
`HeadlampConfig.insecure` flag.  The outcomes of the two
`tls.LoadX509KeyPair` / `tls.X509KeyPair` calls (filesystem and parsing,
outside this model) are passed as `loadFileCertOk` / `loadDataCertOk`;
note the source silently skips a certificate whose load fails.  The
computed `shouldVerifyTLS := !insecure || cluster.shouldVerifyTLS()`
guards the CA-pool load, and the source assigns
`InsecureSkipVerify: shouldVerifyTLS` — this very value — in the
resulting TLS configuration. -/
def createProxyForContext (insecure : Bool) (context : ContextM)
    (loadFileCertOk : Bool) (loadDataCertOk : Bool) : Except String ProxyM :=
  let cluster := context.cluster
  match urlParse cluster.server with
  | none => .error ("failed to get URL from server " ++ cluster.name)
  | some server =>
    let shouldVerifyTLS := !insecure || cluster.shouldVerifyTLSFlag
    let caRes : Except String (List (List Nat)) :=
      if shouldVerifyTLS then
        match cluster.caData with
        | .error e => .error e
        | .ok certificate => .ok [certificate]
      else .ok []
    match caRes with
    | .error e => .error e
    | .ok rootCAs =>
      let fileCertRes : Except String Nat :=
        if getClientCertificate context ≠ "" then
          if getClientKey context = "" then
            .error "found a ClientCertificate entry, but not a ClientKey"
          else if loadFileCertOk then .ok 1 else .ok 0
        else .ok 0
      match fileCertRes with
      | .error e => .error e
      | .ok nFile =>
        let dataCertRes : Except String Nat :=
          match getClientCertificateData context with
          | some _ =>
            if getClientKeyData context = none then
              .error "found a ClientCertificateData entry, but not a ClientKeyData"
            else if loadDataCertOk then .ok 1 else .ok 0
          | none => .ok 0
        match dataCertRes with
        | .error e => .error e
        | .ok nData =>
          .ok { serverURL := server.raw
                tlsConfig :=
                  { insecureSkipVerify := shouldVerifyTLS
                    rootCAs := rootCAs
                    certs := nFile + nData }
                transportProxy := getTransportProxy cluster }

/-- Source constant `KubeConfig = 1 << iota`. -/
def KubeConfig : Nat := 1

/-- Source constant `DynamicCluster`. -/
def DynamicCluster : Nat := 2

/-- Source constant `InCluster`. -/
def InCluster : Nat := 4

/-- The `contextProxy` registry entry from the source: context, built
reverse proxy, and provenance source tag. -/
structure ContextProxyM where
  context : ContextM
  proxy : ProxyM
  source : Nat
deriving DecidableEq, Repr

/-- The `HeadlampConfig.contextProxies` map: context name to entry. -/
abbrev Registry := List (String × ContextProxyM)

/-- `deleteCluster` from the source: 404 when the name is not registered,
403 (registry untouched) when the entry's source is not `DynamicCluster`,
otherwise the entry is deleted and the current config is written back
with the implicit 200. -/
def deleteCluster (reg : Registry) (name : String) : Nat × Registry :=
  match mapLookup reg name with
  | none => (404, reg)
  | some cp =>
    if cp.source ≠ DynamicCluster then (403, reg)
    else (200, mapErase reg name)

/-! ## Cluster request router (handleClusterRequests) -/

/-- What the `/clusters/{clusterName}/{api...}` handler does with one
request: 404 for an unknown cluster, 400 when the registered server URL
fails to parse, a nil-pointer panic when the handler dereferences a nil
`authInfo` while injecting the token, or a forward through the bound
proxy carrying the given Authorization header value (empty = absent). -/
inductive ClusterApiResult
  | notFound
  | badRequest
  | panicked
  | forwarded (auth : String)
deriving DecidableEq, Repr

/-- The `/clusters/{clusterName}/{api...}` handler registered by
`handleClusterRequests`: registry lookup, server URL parse, then — only
when the caller supplied no Authorization header — injection of
`Bearer <token>` from the context's auth info when that token is
non-empty, and forwarding via `proxyHandler`. -/
def handleClusterRequests (reg : Registry) (clusterName : String)
    (reqAuth : String) : ClusterApiResult :=
  match mapLookup reg clusterName with
  | none => .notFound
  | some ctxtProxy =>
    match urlParse ctxtProxy.context.cluster.server with
    | none => .badRequest
    | some _server =>
      if reqAuth = "" then
        match ctxtProxy.context.authInfo with
        | none => .panicked
        | some a =>
          if a.token ≠ "" then .forwarded ("Bearer " ++ a.token)
          else .forwarded reqAuth
      else .forwarded reqAuth

/-! ## External proxy handler (/externalproxy) -/

/-- What the `/externalproxy` handler does with one request: `fatal` when
`url.Parse` of the `proxy-to` header fails (the source calls `log.Fatal`,
killing the process); otherwise `handled wrote400 relayed` recording
whether the 400 "request denied" error was written and whether the
request was relayed to the target URL. -/
inductive ExtProxyResult
  | fatal
  | handled (wrote400 : Bool) (relayed : Bool)
deriving DecidableEq, Repr

/-- The `/externalproxy` handler from the source.  Each configured
allow-list glob pattern is embedded as its compiled match function
(`glob.MustCompile(proxyURL).Match`); the spec treats the relay as an
external collaborator needing only an allow-list match function.  When no
pattern matches, the source writes the 400 error but — with no `return`
after it — still builds the single-host reverse proxy and relays the
request. -/
def externalproxyHandler (proxyURLs : List (String → Bool)) (proxyTo : String) :
    ExtProxyResult :=
  match urlParse proxyTo with
  | none => .fatal
  | some u =>
    let isURLContainedInProxyURLs := proxyURLs.any (fun g => g u.raw)
    ExtProxyResult.handled (!isURLContainedInProxyURLs) true

/-! ## POST /portforward token extraction -/

/-- `strings.Split` around a non-empty separator, on character lists.
The fuel argument (the input's length suffices, since every step consumes
at least one character) makes the recursion structural; the zero-fuel
fallback coincides with the empty-input result, so it is never observed
with adequate fuel. -/
def goSplitChars : Nat → List Char → List Char → List Char → List (List Char)
  | 0, acc, _, s => [acc.reverse ++ s]
  | fuel + 1, acc, sep, s =>
    match s with
    | [] => [acc.reverse]
    | c :: rest =>
      if (c :: rest).take sep.length = sep then
        acc.reverse :: goSplitChars fuel [] sep ((c :: rest).drop sep.length)
      else
        goSplitChars fuel (c :: acc) sep rest

/-- `strings.Split(s, sep)` for a non-empty separator: the substrings
around each non-overlapping instance of `sep`, left to right; splitting
the empty string yields `[""]`. -/
def goSplit (s sep : String) : List String :=
  (goSplitChars s.length [] sep.toList s.toList).map (fun l => String.mk l)

/-- The bearer-token extraction of the `POST /portforward` handler:
`strings.Split(reqToken, "Bearer ")` followed by `splitToken[1]` guarded
by `reqToken != "" || len(splitToken) > 2`.  `none` embeds the Go
index-out-of-range panic raised when the guard passes but the slice has
fewer than two elements. -/
def portforwardExtractToken (reqToken : String) : Option String :=
  let splitToken := goSplit reqToken "Bearer "
  if reqToken ≠ "" || splitToken.length > 2 then splitToken[1]?
  else some ""

/-! ## Base64 and the OIDC authorization flow -/

/-- The standard base64 alphabet used by Go's `base64.StdEncoding`. -/
def b64alphabet : List Char :=
  "ABCDEFGHIJKLMNOPQRSTUVWXYZabcdefghijklmnopqrstuvwxyz0123456789+/".toList

/-- Character for a 6-bit value. -/
def b64char (n : Nat) : Char := b64alphabet.getD n 'A'

/-- 6-bit value of an alphabet character, `none` for a character outside
the alphabet. -/
def b64val (c : Char) : Option Nat :=
  match b64alphabet.indexOf? c with
  | none => none
  | some i => some i

/-- UTF-8 encoding of one character (the byte sequence Go obtains from
`[]byte(s)`). -/
def utf8EncodeCharM (c : Char) : List Nat :=
  let n := c.toNat
  if n < 128 then [n]
  else if n < 2048 then [192 + n / 64, 128 + n % 64]
  else if n < 65536 then [224 + n / 4096, 128 + (n / 64) % 64, 128 + n % 64]
  else [240 + n / 262144, 128 + (n / 4096) % 64, 128 + (n / 64) % 64, 128 + n % 64]

/-- The UTF-8 bytes of a string (`[]byte(s)` in Go). -/
def strBytes (s : String) : List Nat :=
  s.toList.foldr (fun c acc => utf8EncodeCharM c ++ acc) []

/-- Base64 (standard, padded) encoding of a byte list, as in
`base64.StdEncoding.EncodeToString`. -/
def b64encodeBytes : List Nat → List Char
  | b1 :: b2 :: b3 :: rest =>
    b64char (b1 / 4) :: b64char ((b1 % 4) * 16 + b2 / 16) ::
      b64char ((b2 % 16) * 4 + b3 / 64) :: b64char (b3 % 64) :: b64encodeBytes rest
  | [b1, b2] =>
    [b64char (b1 / 4), b64char ((b1 % 4) * 16 + b2 / 16), b64char ((b2 % 16) * 4), '=']
  | [b1] => [b64char (b1 / 4), b64char ((b1 % 4) * 16), '=', '=']
  | [] => []

/-- `base64.StdEncoding.EncodeToString([]byte(s))` from the source's
`/oidc` handler: the state token is the base64 encoding of the cluster
name. -/
def b64encode (s : String) : String := String.mk (b64encodeBytes (strBytes s))

/-- Base64 (standard, padded) decoding in groups of four characters, as
in `base64.StdEncoding.DecodeString`: fails on a length that is not a
multiple of four, on characters outside the alphabet, and on padding
anywhere but the tail of the final group. -/
def b64decodeChars : List Char → Option (List Nat)
  | [] => some []
  | c1 :: c2 :: c3 :: c4 :: rest =>
    (match b64val c1, b64val c2 with
     | some v1, some v2 =>
       if c3 = '=' then
         if c4 = '=' && rest.isEmpty then some [v1 * 4 + v2 / 16] else none
       else
         (match b64val c3 with
          | some v3 =>
            if c4 = '=' then
              if rest.isEmpty then some [v1 * 4 + v2 / 16, (v2 % 16) * 16 + v3 / 4]
              else none
            else
              (match b64val c4 with
               | some v4 =>
                 (match b64decodeChars rest with
                  | some ds =>
                    some ([v1 * 4 + v2 / 16, (v2 % 16) * 16 + v3 / 4, (v3 % 4) * 64 + v4] ++ ds)
                  | none => none)
               | none => none)
          | none => none)
     | _, _ => none)
  | _ => none

/-- `base64.StdEncoding.DecodeString` over a string. -/
def b64decode (s : String) : Option (List Nat) := b64decodeChars s.toList

/-- The `OauthConfig` entry recorded in `oauthRequestMap` (the pending
authorization flow: oauth2 configuration, verifier and context; the
client identifier stands in for configuration identity, the network
handles carry no observable state of their own). -/
structure OauthConfig where
  clientID : String
deriving DecidableEq, Repr

/-- The `oauthRequestMap`: state token to pending flow entry. -/
abbrev OauthMap := List (String × OauthConfig)

/-- Outcome of the `/oidc` handler's provider discovery
(`GetClusterOidcConfig` + `oidc.NewProvider`), an external network call:
either a failure message or the assembled flow configuration. -/
inductive ProviderOutcome
  | discoverFail (msg : String)
  | ok (cfg : OauthConfig)
deriving DecidableEq, Repr

/-- Response written by the `/oidc` handler. -/
inductive OidcResp
  | serverError (msg : String)
  | redirectToProvider (state : String)
deriving DecidableEq, Repr

/-- The `GET /oidc?cluster=` handler: on provider discovery failure it
responds 500; otherwise it records the pending flow in `oauthRequestMap`
under the state token `base64(cluster)` and redirects the browser to the
provider's authorization URL carrying that state. -/
def oidcHandler (m : OauthMap) (cluster : String) (pr : ProviderOutcome) :
    OidcResp × OauthMap :=
  match pr with
  | .discoverFail msg => (.serverError msg, m)
  | .ok cfg =>
    let state := b64encode cluster
    (.redirectToProvider state, mapInsert m state cfg)

/-- Outcome of the callback's external steps: the code-for-token exchange
(`Config.Exchange`), presence of the `id_token` field, signature
verification (`Verifier.Verify`) and claims decoding. -/
inductive ExchangeOutcome
  | exchangeFail (msg : String)
  | noIDToken
  | verifyFail (msg : String)
  | claimsFail (msg : String)
  | verified (rawIDToken : String)
deriving DecidableEq, Repr

/-- One write performed by the `/oidc-callback` handler: an `http.Error`
with its status and message, or the final redirect to the client `auth`
route carrying the decoded state bytes (the cluster name) and the raw
identity token. -/
inductive CbWrite
  | errorW (status : Nat) (msg : String)
  | redirectW (clusterBytes : List Nat) (token : String)
deriving DecidableEq, Repr

/-- The `GET /oidc-callback?state=&code=` handler.  A base64 decode
failure writes a 400 but — with no `return` — falls through; an empty
state returns 400; a state present in `oauthRequestMap` proceeds through
exchange and verification (external outcomes passed in `exch`) and, on
success, redirects; a state not in the map returns 400 "invalid request".
The handler never removes the entry from `oauthRequestMap`. -/
def oidcCallbackHandler (m : OauthMap) (state : String) (exch : ExchangeOutcome) :
    List CbWrite × OauthMap :=
  let decodeRes := b64decode state
  let pre : List CbWrite :=
    match decodeRes with
    | none => [.errorW 400 "wrong state set, invalid request"]
    | some _ => []
  if state = "" then (pre ++ [.errorW 400 "invalid request state is empty"], m)
  else
    match mapLookup m state with
    | some _oauthConfig =>
      match exch with
      | .exchangeFail msg => (pre ++ [.errorW 500 ("Failed to exchange token: " ++ msg)], m)
      | .noIDToken => (pre ++ [.errorW 500 "No id_token field in oauth2 token."], m)
      | .verifyFail msg => (pre ++ [.errorW 500 ("Failed to verify ID Token: " ++ msg)], m)
      | .claimsFail msg => (pre ++ [.errorW 500 msg], m)
      | .verified rawIDToken => (pre ++ [.redirectW (decodeRes.getD []) rawIDToken], m)
    | none => (pre ++ [.errorW 400 "invalid request"], m)

/-! ## Sample inputs for concrete instances -/

/-- A sample cluster definition. -/
def sampleCluster : ClusterM :=
  { name := "c1", server := "https://example.com", shouldVerifyTLSFlag := true
    caData := .ok [1, 2, 3], proxyURL := "" }

/-- A sample context without credential material. -/
def sampleContext : ContextM := { name := "c1", cluster := sampleCluster, authInfo := none }

/-- Sample credential material holding a static bearer token. -/
def sampleAuthInfo : AuthInfoM :=
  { token := "tok123", clientKey := "", clientCertificate := ""
    clientKeyData := none, clientCertificateData := none }

/-- A sample context carrying `sampleAuthInfo`. -/
def sampleContextAuth : ContextM :=
  { name := "c1", cluster := sampleCluster, authInfo := some sampleAuthInfo }

/-- A sample built proxy. -/
def sampleProxy : ProxyM :=
  { serverURL := "https://example.com", tlsConfig := ⟨true, [[1, 2, 3]], 0⟩
    transportProxy := none }

/-- A sample registry: `c1` runtime-added with a token, `c2` from
kubeconfig. -/
def sampleRegistry : Registry :=
  [("c1", ⟨sampleContextAuth, sampleProxy, DynamicCluster⟩),
   ("c2", ⟨sampleContext, sampleProxy, KubeConfig⟩)]

/-- A sample port-forward request payload. -/
def samplePayload : PortForwardPayload :=
  { id := "id1", namespaceField := "ns1", pod := "pod1", service := ""
    serviceNamespace := "", targetPort := "8080", cluster := "c1", port := "1234" }

/-- The session record `startPortForward` would store for
`samplePayload` with close channel 7. -/
def samplePF : PortForward := portForwardToStore samplePayload 7

/-- A second session on the same cluster with a distinct id. -/
def samplePF2 : PortForward := { samplePF with id := "id2", closeChan := 8 }

/-- A sample session store: two sessions on cluster `c1`. -/
def sampleStore : PFStore := [("c1", [samplePF, samplePF2])]

/-! ## Helper lemmas -/

theorem mapLookup_mapInsert_self {α β : Type} [DecidableEq α]
    (m : List (α × β)) (k : α) (v : β) :
    mapLookup (mapInsert m k v) k = some v := by
  induction m with
  | nil => simp [mapInsert, mapLookup]
  | cons kv rest ih =>
    obtain ⟨a, b⟩ := kv
    by_cases h : a = k
    · subst h
      simp [mapInsert, mapLookup]
    · simp [mapInsert, h, mapLookup, ih]

theorem mapLookup_mapInsert_ne {α β : Type} [DecidableEq α]
    (m : List (α × β)) (k k' : α) (v : β) (h : k' ≠ k) :
    mapLookup (mapInsert m k v) k' = mapLookup m k' := by
  induction m with
  | nil => simp [mapInsert, mapLookup, Ne.symm h]
  | cons kv rest ih =>
    obtain ⟨a, b⟩ := kv
    by_cases hk : a = k
    · subst hk
      simp [mapInsert, mapLookup, Ne.symm h]
    · by_cases hk' : a = k'
      · subst hk'
        simp [mapInsert, hk, mapLookup]
      · simp [mapInsert, hk, mapLookup, hk', ih]

theorem mapLookup_mapErase_self {α β : Type} [DecidableEq α]
    (m : List (α × β)) (k : α) :
    mapLookup (mapErase m k) k = none := by
  induction m with
  | nil => simp [mapErase, mapLookup]
  | cons kv rest ih =>
    obtain ⟨a, b⟩ := kv
    by_cases h : a = k
    · simp [mapErase, h, ih]
    · simp [mapErase, h, mapLookup, ih]

theorem mapLookup_mapErase_ne {α β : Type} [DecidableEq α]
    (m : List (α × β)) (k k' : α) (h : k' ≠ k) :
    mapLookup (mapErase m k) k' = mapLookup m k' := by
  induction m with
  | nil => simp [mapErase]
  | cons kv rest ih =>
    obtain ⟨a, b⟩ := kv
    by_cases hk : a = k
    · subst hk
      simp [mapErase, mapLookup, Ne.symm h, ih]
    · simp [mapErase, hk, mapLookup, ih]

theorem getLast?_append_singleton {α : Type} (l : List α) (a : α) :
    (l ++ [a]).getLast? = some a := by
  induction l with
  | nil => rfl
  | cons b rest ih =>
    rw [List.cons_append, List.getLast?_cons]
    simp [ih]

theorem storeInList_first_match (l₁ : List PortForward) (v : PortForward)
    (l₂ : List PortForward) (p : PortForward)
    (h₁ : ∀ u ∈ l₁, u.id ≠ p.id) (hv : v.id = p.id) :
    storeInList (l₁ ++ v :: l₂) p = l₁ ++ p :: l₂ := by
  induction l₁ with
  | nil => simp [storeInList, hv]
  | cons u rest ih =>
    have hu : u.id ≠ p.id := h₁ u (by simp)
    have ih' := ih (fun w hw => h₁ w (by simp [hw]))
    simp [storeInList, hu, ih']

theorem storeInList_no_match (l : List PortForward) (p : PortForward)
    (h : ∀ v ∈ l, v.id ≠ p.id) :
    storeInList l p = l ++ [p] := by
  induction l with
  | nil => rfl
  | cons v rest ih =>
    have hv : v.id ≠ p.id := h v (by simp)
    have ih' := ih (fun w hw => h w (by simp [hw]))
    simp [storeInList, hv, ih']

theorem mem_id_storeInList (l : List PortForward) (p : PortForward) (x : String)
    (h : x ∈ (storeInList l p).map PortForward.id) :
    x ∈ l.map PortForward.id ∨ x = p.id := by
  induction l with
  | nil =>
    simp [storeInList] at h
    exact Or.inr h
  | cons v rest ih =>
    by_cases hv : v.id = p.id
    · simp only [storeInList, if_pos hv, List.map_cons, List.mem_cons] at h
      rcases h with h | h
      · exact Or.inr h
      · exact Or.inl (by rw [List.map_cons]; exact List.mem_cons_of_mem _ h)
    · simp only [storeInList, if_neg hv, List.map_cons, List.mem_cons] at h
      rcases h with h | h
      · exact Or.inl (by rw [List.map_cons, h]; exact List.mem_cons_self _ _)
      · rcases ih h with h' | h'
        · exact Or.inl (by rw [List.map_cons]; exact List.mem_cons_of_mem _ h')
        · exact Or.inr h'

theorem storeInList_nodup (l : List PortForward) (p : PortForward)
    (h : (l.map PortForward.id).Nodup) :
    ((storeInList l p).map PortForward.id).Nodup := by
  induction l with
  | nil => simp [storeInList]
  | cons v rest ih =>
    simp only [List.map_cons, List.nodup_cons] at h
    by_cases hv : v.id = p.id
    · simp only [storeInList, if_pos hv, List.map_cons, List.nodup_cons]
      exact ⟨by rw [← hv]; exact h.1, h.2⟩
    · simp only [storeInList, if_neg hv, List.map_cons, List.nodup_cons]
      refine ⟨fun hmem => ?_, ih h.2⟩
      rcases mem_id_storeInList rest p v.id hmem with h' | h'
      · exact h.1 h'
      · exact hv h'

theorem stopOrDeleteInList_eq_none_iff (l : List PortForward) (id : String) (b : Bool) :
    stopOrDeleteInList l id b = none ↔ ∀ v ∈ l, v.id ≠ id := by
  induction l with
  | nil => simp [stopOrDeleteInList]
  | cons v rest ih =>
    by_cases hv : v.id = id
    · simp only [stopOrDeleteInList, if_pos hv]
      constructor
      · intro h
        cases b <;> simp at h
      · intro h
        exact absurd hv (h v (by simp))
    · simp only [stopOrDeleteInList, if_neg hv]
      cases hrec : stopOrDeleteInList rest id b with
      | none =>
        simp only [true_iff]
        intro w hw
        rcases List.mem_cons.mp hw with h | h
        · rw [h]; exact hv
        · exact (ih.mp hrec) w h
      | some pr =>
        simp only [List.mem_cons]
        constructor
        · intro h; cases h
        · intro h
          have : stopOrDeleteInList rest id b = none :=
            ih.mpr (fun w hw => h w (Or.inr hw))
          rw [this] at hrec
          cases hrec
  
theorem stopOrDeleteInList_stop (l₁ : List PortForward) (v : PortForward)
    (l₂ : List PortForward) (id : String)
    (h₁ : ∀ u ∈ l₁, u.id ≠ id) (hv : v.id = id) :
    stopOrDeleteInList (l₁ ++ v :: l₂) id true =
      some (l₁ ++ ({ v with status := STOPPED }) :: l₂, [v.closeChan]) := by
  induction l₁ with
  | nil => simp [stopOrDeleteInList, hv]
  | cons u rest ih =>
    have hu : u.id ≠ id := h₁ u (by simp)
    have ih' := ih (fun w hw => h₁ w (by simp [hw]))
    simp [stopOrDeleteInList, hu, ih']

theorem stopOrDeleteInList_delete (l₁ : List PortForward) (v : PortForward)
    (l₂ : List PortForward) (id : String)
    (h₁ : ∀ u ∈ l₁, u.id ≠ id) (hv : v.id = id) :
    stopOrDeleteInList (l₁ ++ v :: l₂) id false = some (l₁ ++ l₂, []) := by
  induction l₁ with
  | nil => simp [stopOrDeleteInList, hv]
  | cons u rest ih =>
    have hu : u.id ≠ id := h₁ u (by simp)
    have ih' := ih (fun w hw => h₁ w (by simp [hw]))
    simp [stopOrDeleteInList, hu, ih']

theorem findPFByID_first_match (l₁ : List PortForward) (v : PortForward)
    (l₂ : List PortForward) (id : String)
    (h₁ : ∀ u ∈ l₁, u.id ≠ id) (hv : v.id = id) :
    findPFByID (l₁ ++ v :: l₂) id = some v := by
  induction l₁ with
  | nil => simp [findPFByID, hv]
  | cons u rest ih =>
    have hu : u.id ≠ id := h₁ u (by simp)
    have ih' := ih (fun w hw => h₁ w (by simp [hw]))
    simp [findPFByID, hu, ih']

theorem findPFByID_no_match (l : List PortForward) (id : String)
    (h : ∀ v ∈ l, v.id ≠ id) :
    findPFByID l id = none := by
  induction l with
  | nil => rfl
  | cons v rest ih =>
    have hv : v.id ≠ id := h v (by simp)
    have ih' := ih (fun w hw => h w (by simp [hw]))
    simp [findPFByID, hv, ih']

/-! ## Claim theorems -/

/-- Claim C1 (code bug): for a `proxy-to` URL matching no allow-list
pattern — here the empty allow-list and `http://evil.example.com` — the
`/externalproxy` handler writes the 400 "no allowed proxy url match,
request denied" error and nevertheless relays the request: the missing
`return` after `http.Error` lets control fall through to
`proxy.ServeHTTP`, contradicting both the denial message and the claim
that the request body is relayed only on an allow-list match. -/
theorem externalproxy_denied_but_relayed :
    externalproxyHandler [] "http://evil.example.com" =
      ExtProxyResult.handled true true := rfl

/-- Claim C2 (code bug): with the global insecure flag off — so
verification is not disabled for the target — `createProxyForContext`
assembles a TLS configuration with `InsecureSkipVerify = true`: the
source assigns the computed `shouldVerifyTLS` value itself (here `true`)
to `InsecureSkipVerify`, inverting the claimed equivalence and skipping
upstream certificate verification exactly when it should happen, even
though the CA bundle was loaded into the root pool. -/
theorem createProxyForContext_skipVerify_inverted :
    (createProxyForContext false sampleContext true true).map
      (fun proxy => proxy.tlsConfig.insecureSkipVerify) = Except.ok true := rfl

/-- Claim C9 (code bug): the bearer-token extraction of the
`POST /portforward` handler is not total.  For the non-empty
Authorization header `"abc"`, which does not contain `"Bearer "`, the
guard `reqToken != "" || len(splitToken) > 2` passes while the split has
exactly one element, so `splitToken[1]` indexes out of bounds — a panic,
embedded as `none`; a well-formed `"Bearer tok"` header extracts the
token. -/
theorem portforwardExtractToken_panics :
    portforwardExtractToken "abc" = none ∧
    (goSplit "abc" "Bearer ").length = 1 ∧
    portforwardExtractToken "Bearer tok" = some "tok" :=
  ⟨rfl, rfl, rfl⟩

/-- Claim C5: `DELETE /cluster/{name}` responds 404 when the name is not
registered; responds 403 leaving the registry unchanged when the entry's
provenance is not `DynamicCluster` (RuntimeAdded); and for a
`DynamicCluster` entry it removes the name from the registry, so an
identical second delete responds 404. -/
theorem deleteCluster_spec (reg : Registry) (name : String) :
    (mapLookup reg name = none → deleteCluster reg name = (404, reg)) ∧
    (∀ cp, mapLookup reg name = some cp → cp.source ≠ DynamicCluster →
      deleteCluster reg name = (403, reg)) ∧
    (∀ cp, mapLookup reg name = some cp → cp.source = DynamicCluster →
      deleteCluster reg name = (200, mapErase reg name) ∧
      mapLookup (mapErase reg name) name = none ∧
      deleteCluster (mapErase reg name) name = (404, mapErase reg name)) := by
  refine ⟨?_, ?_, ?_⟩
  · intro h
    simp [deleteCluster, h]
  · intro cp h hs
    simp [deleteCluster, h, hs]
  · intro cp h hs
    refine ⟨by simp [deleteCluster, h, hs], mapLookup_mapErase_self reg name, ?_⟩
    simp [deleteCluster, mapLookup_mapErase_self reg name]

/-- Witness for C5 at a concrete registry: deleting the kubeconfig
cluster `c2` is forbidden with 403, deleting the runtime-added `c1`
succeeds, a second delete of `c1` gives 404, and an unknown name gives
404. -/
theorem deleteCluster_spec_witness :
    deleteCluster sampleRegistry "c2" = (403, sampleRegistry) ∧
    deleteCluster sampleRegistry "c1" = (200, mapErase sampleRegistry "c1") ∧
    deleteCluster (mapErase sampleRegistry "c1") "c1" = (404, mapErase sampleRegistry "c1") ∧
    deleteCluster sampleRegistry "nope" = (404, sampleRegistry) := by
  have h1 := (deleteCluster_spec sampleRegistry "c2").2.1
    ⟨sampleContext, sampleProxy, KubeConfig⟩ rfl (by decide)
  have h2 := (deleteCluster_spec sampleRegistry "c1").2.2
    ⟨sampleContextAuth, sampleProxy, DynamicCluster⟩ rfl rfl
  have h4 := (deleteCluster_spec sampleRegistry "nope").1 rfl
  exact ⟨h1, h2.1, h2.2.2, h4⟩

/-- Claim C10: a successful delete (status 200) changes only the entry
keyed by the deleted name — the registry entry of every other name,
hence its context, proxy handler and provenance tag, is exactly the same
before and after. -/
theorem deleteCluster_frame (reg : Registry) (name : String)
    (hok : (deleteCluster reg name).1 = 200) :
    ∀ m, m ≠ name → mapLookup (deleteCluster reg name).2 m = mapLookup reg m := by
  intro m hm
  cases hl : mapLookup reg name with
  | none => simp [deleteCluster, hl]
  | some cp =>
    by_cases hs : cp.source = DynamicCluster
    · simp [deleteCluster, hl, hs, mapLookup_mapErase_ne reg name m hm]
    · simp [deleteCluster, hl, hs]

/-- Witness for C10: after deleting `c1` from the sample registry, the
entry for `c2` is unchanged. -/
theorem deleteCluster_frame_witness :
    mapLookup (deleteCluster sampleRegistry "c1").2 "c2" = mapLookup sampleRegistry "c2" :=
  deleteCluster_frame sampleRegistry "c1" (by decide) "c2" (by decide)

/-- Claim C8: for `GET /clusters/{target}/{api...}` — an unregistered
target is answered 404; for a registered target whose server URL parses,
a request without an Authorization header is forwarded carrying
`Authorization: Bearer <token>` whenever the target's credential
material holds a non-empty static token, and a request already carrying
an Authorization header is forwarded with that header unchanged. -/
theorem handleClusterRequests_spec (reg : Registry) (clusterName reqAuth : String) :
    (mapLookup reg clusterName = none →
      handleClusterRequests reg clusterName reqAuth = ClusterApiResult.notFound) ∧
    (∀ cp a u, mapLookup reg clusterName = some cp →
      urlParse cp.context.cluster.server = some u →
      cp.context.authInfo = some a → a.token ≠ "" → reqAuth = "" →
      handleClusterRequests reg clusterName reqAuth =
        ClusterApiResult.forwarded ("Bearer " ++ a.token)) ∧
    (∀ cp u, mapLookup reg clusterName = some cp →
      urlParse cp.context.cluster.server = some u → reqAuth ≠ "" →
      handleClusterRequests reg clusterName reqAuth =
        ClusterApiResult.forwarded reqAuth) := by
  refine ⟨?_, ?_, ?_⟩
  · intro h
    simp [handleClusterRequests, h]
  · intro cp a u h hu ha ht hr
    simp [handleClusterRequests, h, hu, hr, ha, ht]
  · intro cp u h hu hr
    simp [handleClusterRequests, h, hu, hr]

/-- Witness for C8: on the sample registry, a bare request to `c1` gets
the stored bearer token injected, an unknown cluster gets 404, and a
request with its own Authorization header keeps it. -/
theorem handleClusterRequests_spec_witness :
    handleClusterRequests sampleRegistry "c1" "" =
      ClusterApiResult.forwarded ("Bearer " ++ "tok123") ∧
    handleClusterRequests sampleRegistry "nope" "" = ClusterApiResult.notFound ∧
    handleClusterRequests sampleRegistry "c1" "Basic xyz" =
      ClusterApiResult.forwarded "Basic xyz" := by
  have h1 := (handleClusterRequests_spec sampleRegistry "c1" "").2.1
    ⟨sampleContextAuth, sampleProxy, DynamicCluster⟩ sampleAuthInfo
    ⟨"https://example.com"⟩ rfl rfl rfl (by decide) rfl
  have h2 := (handleClusterRequests_spec sampleRegistry "nope" "").1 rfl
  have h3 := (handleClusterRequests_spec sampleRegistry "c1" "Basic xyz").2.2
    ⟨sampleContextAuth, sampleProxy, DynamicCluster⟩
    ⟨"https://example.com"⟩ rfl rfl (by decide)
  exact ⟨h1, h2, h3⟩

/-- Claim C6: `portforwardstore` has upsert-by-id semantics on the
per-target slice — storing a record whose id already occurs replaces the
first such entry in place and leaves the per-target session count
unchanged; storing a record with a fresh id appends it; and id
uniqueness within the per-target slice is preserved. -/
theorem portforwardstore_upsert (store : PFStore) (p : PortForward) :
    (∀ l₁ v l₂, getPortForwardList store p.cluster = l₁ ++ v :: l₂ →
      (∀ u ∈ l₁, u.id ≠ p.id) → v.id = p.id →
      getPortForwardList (portforwardstore store p) p.cluster = l₁ ++ p :: l₂ ∧
      (getPortForwardList (portforwardstore store p) p.cluster).length =
        (getPortForwardList store p.cluster).length) ∧
    ((∀ v ∈ getPortForwardList store p.cluster, v.id ≠ p.id) →
      getPortForwardList (portforwardstore store p) p.cluster =
        getPortForwardList store p.cluster ++ [p]) ∧
    (((getPortForwardList store p.cluster).map PortForward.id).Nodup →
      ((getPortForwardList (portforwardstore store p) p.cluster).map PortForward.id).Nodup) := by
  have hbase : getPortForwardList (portforwardstore store p) p.cluster =
      storeInList (getPortForwardList store p.cluster) p := by
    simp [getPortForwardList, portforwardstore, mapLookup_mapInsert_self]
  refine ⟨?_, ?_, ?_⟩
  · intro l₁ v l₂ hdec h₁ hv
    rw [hbase, hdec, storeInList_first_match l₁ v l₂ p h₁ hv]
    simp
  · intro h
    rw [hbase, storeInList_no_match _ p h]
  · intro h
    rw [hbase]
    exact storeInList_nodup _ p h

/-- Witness for C6: on the sample store, re-storing `id1` with a changed
port replaces that entry in place (count stays 2), and storing a fresh
`id3` appends it. -/
theorem portforwardstore_upsert_witness :
    getPortForwardList (portforwardstore sampleStore ({ samplePF with port := "9999" })) "c1" =
      [{ samplePF with port := "9999" }, samplePF2] ∧
    getPortForwardList (portforwardstore sampleStore ({ samplePF with id := "id3" })) "c1" =
      [samplePF, samplePF2, { samplePF with id := "id3" }] := by
  have h1 := ((portforwardstore_upsert sampleStore ({ samplePF with port := "9999" })).1
    [] samplePF [samplePF2] rfl (by simp) rfl).1
  have h2 := (portforwardstore_upsert sampleStore ({ samplePF with id := "id3" })).2.1
    (by decide)
  exact ⟨h1, h2⟩

/-- Claim C7: `stopOrDeletePortForward` fails with the not-found error
exactly when no session with the given cluster and id is stored; on the
stored session (decomposed at its first occurrence), a stop request
signals the session's close channel and leaves it indexed with status
Stopped — still returned by `getPortForwardByID` and present in
`getPortForwardList` — while a delete request removes it from the index
so that subsequent `getPortForwardList` and `getPortForwardByID` calls
no longer return it. -/
theorem stopOrDeletePortForward_spec (store : PFStore) (cluster id : String) :
    (∀ b, stopOrDeletePortForward store cluster id b = Except.error "PortForward not found" ↔
      ∀ v ∈ getPortForwardList store cluster, v.id ≠ id) ∧
    (∀ l₁ v l₂, mapLookup store cluster = some (l₁ ++ v :: l₂) →
      (∀ u ∈ l₁, u.id ≠ id) → v.id = id →
      (stopOrDeletePortForward store cluster id true =
        Except.ok (mapInsert store cluster (l₁ ++ ({ v with status := STOPPED }) :: l₂),
          [v.closeChan]) ∧
       getPortForwardByID
          (mapInsert store cluster (l₁ ++ ({ v with status := STOPPED }) :: l₂)) cluster id =
        { v with status := STOPPED } ∧
       { v with status := STOPPED } ∈
        getPortForwardList
          (mapInsert store cluster (l₁ ++ ({ v with status := STOPPED }) :: l₂)) cluster) ∧
      (stopOrDeletePortForward store cluster id false =
        Except.ok (mapInsert store cluster (l₁ ++ l₂), []) ∧
       ((∀ u ∈ l₂, u.id ≠ id) →
        (∀ u ∈ getPortForwardList (mapInsert store cluster (l₁ ++ l₂)) cluster, u.id ≠ id) ∧
        getPortForwardByID (mapInsert store cluster (l₁ ++ l₂)) cluster id =
          emptyPortForward))) := by
  constructor
  · intro b
    cases hl : mapLookup store cluster with
    | none => simp [stopOrDeletePortForward, hl, getPortForwardList]
    | some l =>
      simp only [stopOrDeletePortForward, hl, getPortForwardList, Option.getD_some]
      cases hrec : stopOrDeleteInList l id b with
      | none =>
        constructor
        · intro _
          exact (stopOrDeleteInList_eq_none_iff l id b).mp hrec
        · intro _
          trivial
      | some pr =>
        constructor
        · intro h
          simp at h
        · intro h
          have hn := (stopOrDeleteInList_eq_none_iff l id b).mpr h
          rw [hn] at hrec
          cases hrec
  · intro l₁ v l₂ hl h₁ hv
    have hstop := stopOrDeleteInList_stop l₁ v l₂ id h₁ hv
    have hdel := stopOrDeleteInList_delete l₁ v l₂ id h₁ hv
    have hins : mapLookup
        (mapInsert store cluster (l₁ ++ ({ v with status := STOPPED }) :: l₂)) cluster =
        some (l₁ ++ ({ v with status := STOPPED }) :: l₂) := mapLookup_mapInsert_self _ _ _
    have hins' : mapLookup (mapInsert store cluster (l₁ ++ l₂)) cluster =
        some (l₁ ++ l₂) := mapLookup_mapInsert_self _ _ _
    refine ⟨⟨?_, ?_, ?_⟩, ?_, ?_⟩
    · simp [stopOrDeletePortForward, hl, hstop]
    · have hfind := findPFByID_first_match l₁ ({ v with status := STOPPED }) l₂ id h₁
        (show ({ v with status := STOPPED }).id = id from hv)
      simp [getPortForwardByID, hins, hfind]
    · simp [getPortForwardList, hins]
    · simp [stopOrDeletePortForward, hl, hdel]
    · intro h₂
      have hnm : ∀ u ∈ l₁ ++ l₂, u.id ≠ id := by
        intro u hu
        rcases List.mem_append.mp hu with h | h
        · exact h₁ u h
        · exact h₂ u h
      constructor
      · intro u hu
        rw [getPortForwardList, hins', Option.getD_some] at hu
        exact hnm u hu
      · simp [getPortForwardByID, hins', findPFByID_no_match _ id hnm]

/-- Witness for C7 on the sample store: stopping `id1` marks it Stopped
in place and signals channel 7; deleting `id1` makes it vanish from get;
an unknown id yields the not-found error. -/
theorem stopOrDeletePortForward_spec_witness :
    stopOrDeletePortForward sampleStore "c1" "id1" true =
      Except.ok (mapInsert sampleStore "c1" [{ samplePF with status := STOPPED }, samplePF2],
        [7]) ∧
    getPortForwardByID (mapInsert sampleStore "c1" [{ samplePF with status := STOPPED }, samplePF2])
        "c1" "id1" = { samplePF with status := STOPPED } ∧
    stopOrDeletePortForward sampleStore "c1" "id1" false =
      Except.ok (mapInsert sampleStore "c1" [samplePF2], []) ∧
    getPortForwardByID (mapInsert sampleStore "c1" [samplePF2]) "c1" "id1" =
      emptyPortForward ∧
    stopOrDeletePortForward sampleStore "c1" "id9" true =
      Except.error "PortForward not found" := by
  have h := (stopOrDeletePortForward_spec sampleStore "c1" "id1").2
    [] samplePF [samplePF2] rfl (by simp) rfl
  have herr := ((stopOrDeletePortForward_spec sampleStore "c1" "id9").1 true).mpr (by decide)
  exact ⟨h.1.1, h.1.2.1, h.2.1, (h.2.2 (by decide)).2, herr⟩

/-- Counterexample for claim C4: a watchdog tick reporting pod phase
`"Failed"` for the running sample session stores a record whose status
field is still `"Running"` — it does not transition to a status `Error`
(no such status value exists in the code); only the error field carries
the diagnostic. -/
theorem watchdogRun_status_counterexample :
    (getPortForwardByID (watchdogRun samplePF [] [PodPoll.phase "Failed"]).store
      "c1" "id1").errorField = "Pod is not running" ∧
    ¬ (getPortForwardByID (watchdogRun samplePF [] [PodPoll.phase "Failed"]).store
      "c1" "id1").status = "Error" ∧
    (getPortForwardByID (watchdogRun samplePF [] [PodPoll.phase "Failed"]).store
      "c1" "id1").status = "Running" := by
  decide

/-- Claim C4 as amended: on the first watchdog tick whose pod lookup
reports a non-running phase (after any number of benign ticks), the
session record is stored exactly once with the diagnostic
`"Pod is not running"` in its error field — its status field remaining
`RUNNING`, since the code has no Error status value — the tunnel's
cancellation channel is signalled, and the watchdog consumes no further
ticks: the transition is terminal. -/
theorem watchdogRun_terminal (p : PortForwardPayload) (stopChan : Nat) (store : PFStore)
    (pre post : List PodPoll) (hpre : ∀ o ∈ pre, watchdogTick o = none)
    (phse : String) (hph : phse ≠ PodRunning) :
    watchdogRun (portForwardToStore p stopChan) store
        (pre ++ PodPoll.phase phse :: post) =
      ⟨portforwardstore store
          { portForwardToStore p stopChan with errorField := "Pod is not running" },
        [stopChan], 1, pre.length + 1⟩ ∧
    ({ portForwardToStore p stopChan with errorField := "Pod is not running" }).status =
      RUNNING := by
  refine ⟨?_, rfl⟩
  induction pre with
  | nil => simp [watchdogRun, watchdogTick, hph, portForwardToStore]
  | cons o rest ih =>
    have ho : watchdogTick o = none := hpre o (by simp)
    have ih' := ih (fun w hw => hpre w (by simp [hw]))
    simp [watchdogRun, ho, ih']

/-- Witness for C4 (amended): a tolerated connection-refused tick, then a
`"Failed"` phase tick, then a further (unconsumed) tick — the run stores
once, signals channel 7 once, and consumes exactly two ticks. -/
theorem watchdogRun_terminal_witness :
    watchdogRun samplePF []
        [PodPoll.connRefused, PodPoll.phase "Failed", PodPoll.phase "Running"] =
      ⟨portforwardstore [] { samplePF with errorField := "Pod is not running" },
        [7], 1, 2⟩ :=
  (watchdogRun_terminal samplePayload 7 [] [PodPoll.connRefused] [PodPoll.phase "Running"]
    (by decide) "Failed" (by decide)).1

/-- Counterexample for claim C3: issuing a flow for cluster `"c1"`
records state `"YzE="`; the first successful callback with that state
redirects but leaves the `oauthRequestMap` entry in place (nothing is
deleted), and a second callback with the same state is processed to the
same redirect instead of being rejected with a 400. -/
theorem oidcCallback_state_not_consumed :
    (oidcHandler [] "c1" (ProviderOutcome.ok ⟨"cid"⟩)).2 = [("YzE=", ⟨"cid"⟩)] ∧
    oidcCallbackHandler [("YzE=", ⟨"cid"⟩)] "YzE=" (ExchangeOutcome.verified "tok") =
      ([CbWrite.redirectW [99, 49] "tok"], [("YzE=", ⟨"cid"⟩)]) ∧
    (oidcCallbackHandler
        (oidcCallbackHandler [("YzE=", ⟨"cid"⟩)] "YzE="
          (ExchangeOutcome.verified "tok")).2
        "YzE=" (ExchangeOutcome.verified "tok")).1 =
      [CbWrite.redirectW [99, 49] "tok"] :=
  ⟨rfl, rfl, rfl⟩

/-- Claim C3 as amended: the callback handler never mutates the
pending-flow map — in particular a successful callback does **not**
delete the entry for its state, so a second callback with the same state
is processed identically (ending in the same redirect) rather than
rejected; a callback whose state was never issued always ends in a 400
write and creates no side effects on the map. -/
theorem oidcCallbackHandler_spec (m : OauthMap) (state : String) (exch : ExchangeOutcome) :
    ((oidcCallbackHandler m state exch).2 = m) ∧
    (mapLookup m state = none →
      ∃ msg, ((oidcCallbackHandler m state exch).1).getLast? =
        some (CbWrite.errorW 400 msg)) ∧
    (∀ cfg, mapLookup m state = some cfg →
      mapLookup ((oidcCallbackHandler m state exch).2) state = some cfg ∧
      oidcCallbackHandler ((oidcCallbackHandler m state exch).2) state exch =
        oidcCallbackHandler m state exch) ∧
    (∀ cfg rawIDToken, mapLookup m state = some cfg → state ≠ "" →
      ∃ pre, (oidcCallbackHandler m state (ExchangeOutcome.verified rawIDToken)).1 =
        pre ++ [CbWrite.redirectW ((b64decode state).getD []) rawIDToken]) := by
  have hsnd : (oidcCallbackHandler m state exch).2 = m := by
    by_cases hs : state = ""
    · simp [oidcCallbackHandler, hs]
    · cases hl : mapLookup m state with
      | none => simp [oidcCallbackHandler, hs, hl]
      | some cfg => cases exch <;> simp [oidcCallbackHandler, hs, hl]
  refine ⟨hsnd, ?_, ?_, ?_⟩
  · intro hl
    by_cases hs : state = ""
    · exact ⟨"invalid request state is empty",
        by simp [oidcCallbackHandler, hs, getLast?_append_singleton]⟩
    · exact ⟨"invalid request",
        by simp [oidcCallbackHandler, hs, hl, getLast?_append_singleton]⟩
  · intro cfg hl
    rw [hsnd]
    exact ⟨hl, rfl⟩
  · intro cfg rawIDToken hl hs
    refine ⟨(match b64decode state with
      | none => [CbWrite.errorW 400 "wrong state set, invalid request"]
      | some _ => []), ?_⟩
    simp [oidcCallbackHandler, hs, hl]

/-- Witness for C3 (amended): on the issued state `"YzE="` the entry
survives a successful callback, and the never-issued state `"zzz"` ends
in a 400 write. -/
theorem oidcCallbackHandler_spec_witness :
    mapLookup (oidcCallbackHandler [("YzE=", ⟨"cid"⟩)] "YzE="
        (ExchangeOutcome.verified "tok")).2 "YzE=" = some ⟨"cid"⟩ ∧
    (∃ msg, ((oidcCallbackHandler [] "zzz" (ExchangeOutcome.verified "tok")).1).getLast? =
      some (CbWrite.errorW 400 msg)) := by
  have h1 := ((oidcCallbackHandler_spec [("YzE=", ⟨"cid"⟩)] "YzE="
    (ExchangeOutcome.verified "tok")).2.2.1 ⟨"cid"⟩ rfl).1
  have h2 := (oidcCallbackHandler_spec [] "zzz" (ExchangeOutcome.verified "tok")).2.1 rfl
  exact ⟨h1, h2⟩
